import Mathlib

/-!
Verification development for the document-model core of a PDF processing
library.  The object model, error taxonomy, resolver capability, typed
extraction helpers, content-stream assembler, catalog schemas and the
graphics state are embedded as executable Lean definitions, and the
behavioural properties of the system are proved as theorems about them.

Source files embedded: `src/content/stream.rs`, `src/error.rs`,
`src/catalog.rs`, `src/render/graphics_state.rs`.  Components those files
depend on but that are not part of the snapshot (the `Object`/`ObjectType`
definitions, the `Resolve` trait with its assertion helpers, the
`FromObj` derive expansion, the `pdf_enum` macro expansion and the filter
pipeline's `decode_stream`) are modelled from the specification, each
marked `Modelled from the spec:` in its doc comment.
-/

namespace Pdf

/-- Modelled from the spec: the closed set of primitive value shapes
(`ObjectType` is declared outside the snapshot; `src/error.rs` imports it).
One tag per `Object` constructor. -/
inductive ObjectType where
  | null
  | boolean
  | integer
  | real
  | string
  | name
  | array
  | dictionary
  | stream
  | reference
deriving DecidableEq, Repr

/-- Modelled from the spec: a `Reference` is an identity pair
(object number, generation number); equality is defined solely by the pair. -/
structure Reference where
  objectNumber : Nat
  generation : Nat
deriving DecidableEq, Repr

/-- Modelled from the spec: `Object` is a closed variant over
{Null, Boolean, Integer, Real, String, Name, Array, Dictionary, Stream,
Reference}.  A dictionary is a mapping from names to objects (embedded as an
association list, first binding wins); a stream pairs its metadata
dictionary with an undecoded byte body (bytes as `Nat`). -/
inductive Object where
  | null
  | boolean (b : Bool)
  | integer (i : Int)
  | real (r : Rat)
  | string (s : String)
  | name (n : String)
  | array (elems : List Object)
  | dictionary (entries : List (String × Object))
  | stream (dict : List (String × Object)) (body : List Nat)
  | reference (r : Reference)

/-- A PDF dictionary: association list from key names to objects. -/
abbrev Dictionary := List (String × Object)

/-- The shape tag of an object (what `ObjectType::from` of an `Object` is). -/
def Object.objectType : Object → ObjectType
  | .null => .null
  | .boolean _ => .boolean
  | .integer _ => .integer
  | .real _ => .real
  | .string _ => .string
  | .name _ => .name
  | .array _ => .array
  | .dictionary _ => .dictionary
  | .stream _ _ => .stream
  | .reference _ => .reference

/-- A `Stream` value: metadata dictionary plus undecoded byte body
(field names follow the source: `stream` is the body, `dict` the metadata). -/
structure Stream where
  stream : List Nat
  dict : Dictionary

/-- The error taxonomy of `src/error.rs` (`ParseError`), extended with the
two kinds its in-snapshot callers construct:
`mismatchedObjectTypeAny` (constructed by `ContentStream::from_obj` in
`src/content/stream.rs`; an object-shape mismatch against a set of
acceptable alternatives, per the spec's error-handling design) and
`mismatchedTypeTag` — Modelled from the spec: the type-tag validation
failure reported by `expect_type`, naming both the expected and the found
tag names.  `arrayOfInvalidLength` carries only the expected length, as in
the in-snapshot construction site (`assert_len` in `src/catalog.rs`). -/
inductive ParseError where
  | mismatchedByte (expected : Nat) (found : Option Nat)
  | mismatchedByteMany (expected : List Nat) (found : Option Nat)
  | unexpectedEof
  | ioError
  | mismatchedObjectType (expected : ObjectType) (found : Object)
  | mismatchedObjectTypeAny (expected : List ObjectType)
  | mismatchedTypeTag (expected : String) (found : String)
  | missingRequiredKey (key : String)
  | arrayOfInvalidLength (expected : Nat)
  | unrecognizedVariant (found : String) (ty : String)
  | todo

/-- `PdfResult<T> = Result<T, ParseError>`. -/
abbrev PdfResult (α : Type) := Except ParseError α

/-- Modelled from the spec: the `Resolve` capability (the trait is declared
outside the snapshot).  `resolve` turns a possibly-indirect value into a
concrete value via the external backing store; the filter pipeline's
`decode_stream` (also outside the snapshot; a pure function of the body
bytes and the stream's metadata dictionary) is carried alongside so that
the assembler can be expressed over the same context value. -/
structure Resolve where
  resolve : Object → PdfResult Object
  decode_stream : List Nat → Dictionary → PdfResult (List Nat)

/-- A resolver over direct objects only: resolution is the identity
(resolving a direct value is a no-op) and decoding is the identity filter
chain. -/
def idResolver : Resolve where
  resolve o := .ok o
  decode_stream b _ := .ok b

/-- A resolver whose decoder always fails; used to observe that a code path
never invokes the filter pipeline. -/
def noDecodeResolver : Resolve where
  resolve o := .ok o
  decode_stream _ _ := .error .todo

/-- Modelled from the spec: `assert_stream` resolves, then asserts the
result is a Stream, failing with a typed-mismatch error naming the expected
shape and the found object. -/
def Resolve.assert_stream (r : Resolve) (obj : Object) : PdfResult Stream :=
  match r.resolve obj with
  | .error e => .error e
  | .ok (.stream d b) => .ok ⟨b, d⟩
  | .ok found => .error (.mismatchedObjectType .stream found)

/-- Modelled from the spec: `assert_dict` resolves, then asserts the result
is a Dictionary. -/
def Resolve.assert_dict (r : Resolve) (obj : Object) : PdfResult Dictionary :=
  match r.resolve obj with
  | .error e => .error e
  | .ok (.dictionary d) => .ok d
  | .ok found => .error (.mismatchedObjectType .dictionary found)

/-- Modelled from the spec: `assert_name` resolves, then asserts the result
is a Name. -/
def Resolve.assert_name (r : Resolve) (obj : Object) : PdfResult String :=
  match r.resolve obj with
  | .error e => .error e
  | .ok (.name n) => .ok n
  | .ok found => .error (.mismatchedObjectType .name found)

/-- Dictionary key lookup (first binding wins). -/
def dictGet (d : Dictionary) (k : String) : Option Object :=
  match d with
  | [] => none
  | (k', v) :: rest => if k' = k then some v else dictGet rest k

/-- `collect::<PdfResult<Vec<_>>>()` over a mapped list: apply `f` to each
element left to right, stopping at the first error. -/
def collectResults {α β : Type} (f : α → PdfResult β) : List α → PdfResult (List β)
  | [] => .ok []
  | x :: xs =>
    match f x with
    | .error e => .error e
    | .ok y =>
      match collectResults f xs with
      | .error e => .error e
      | .ok ys => .ok (y :: ys)

/-- `Iterator::try_fold`: fold left to right, stopping at the first error. -/
def tryFold {α β : Type} (f : β → α → PdfResult β) : β → List α → PdfResult β
  | acc, [] => .ok acc
  | acc, x :: xs =>
    match f acc x with
    | .error e => .error e
    | .ok acc' => tryFold f acc' xs

/-- Modelled from the spec: extraction of a required field with key `k` —
absent fails with missing-required-key naming `k` exactly; present is
converted to the field's declared shape by `conv`. -/
def getRequired {α : Type} (d : Dictionary) (k : String) (r : Resolve)
    (conv : Object → Resolve → PdfResult α) : PdfResult α :=
  match dictGet d k with
  | none => .error (.missingRequiredKey k)
  | some o => conv o r

/-- Modelled from the spec: extraction of an optional field — absent
produces the absent representation; present is converted. -/
def getOptional {α : Type} (d : Dictionary) (k : String) (r : Resolve)
    (conv : Object → Resolve → PdfResult α) : PdfResult (Option α) :=
  match dictGet d k with
  | none => .ok none
  | some o =>
    match conv o r with
    | .error e => .error e
    | .ok v => .ok (some v)

/-- Modelled from the spec: extraction of a field declared with a literal
default — absent produces the default exactly; present is converted. -/
def getDefault {α : Type} (d : Dictionary) (k : String) (r : Resolve)
    (conv : Object → Resolve → PdfResult α) (dflt : α) : PdfResult α :=
  match dictGet d k with
  | none => .ok dflt
  | some o => conv o r

/-- Modelled from the spec: `expect_type` reads the dictionary's type-tag
field "Type", resolves it and compares against the expected name; required
and absent fails; present and mismatched fails naming both the expected and
the found tag; not required and absent succeeds silently. -/
def expect_type (d : Dictionary) (expected : String) (r : Resolve)
    (required : Bool) : PdfResult Unit :=
  match dictGet d "Type" with
  | none => if required then .error (.missingRequiredKey "Type") else .ok ()
  | some o =>
    match r.resolve o with
    | .error e => .error e
    | .ok (.name n) =>
      if n = expected then .ok () else .error (.mismatchedTypeTag expected n)
    | .ok found => .error (.mismatchedObjectType .name found)

/-- Name field conversion: resolve and assert a Name. -/
def nameFromObj (o : Object) (r : Resolve) : PdfResult String :=
  r.assert_name o

/-- String field conversion: resolve and assert a String. -/
def stringFromObj (o : Object) (r : Resolve) : PdfResult String :=
  match r.resolve o with
  | .error e => .error e
  | .ok (.string s) => .ok s
  | .ok found => .error (.mismatchedObjectType .string found)

/-- Boolean field conversion: resolve and assert a Boolean. -/
def boolFromObj (o : Object) (r : Resolve) : PdfResult Bool :=
  match r.resolve o with
  | .error e => .error e
  | .ok (.boolean b) => .ok b
  | .ok found => .error (.mismatchedObjectType .boolean found)

/-- Integer field conversion: resolve and assert an Integer. -/
def intFromObj (o : Object) (r : Resolve) : PdfResult Int :=
  match r.resolve o with
  | .error e => .error e
  | .ok (.integer i) => .ok i
  | .ok found => .error (.mismatchedObjectType .integer found)

/-- Reference (and `TypedReference`) field conversion: the value itself
must be a Reference; a typed reference does not pre-resolve. -/
def refFromObj (o : Object) (_ : Resolve) : PdfResult Reference :=
  match o with
  | .reference rf => .ok rf
  | found => .error (.mismatchedObjectType .reference found)

/-- Dictionary field conversion: resolve and assert a Dictionary. -/
def dictFromObj (o : Object) (r : Resolve) : PdfResult Dictionary :=
  r.assert_dict o

/-- Modelled from the spec: fields of compound types whose definitions live
outside the snapshot (`OptionalContentProperties`) are kept as the resolved
object. -/
def objFromObj (o : Object) (r : Resolve) : PdfResult Object :=
  r.resolve o

/-- Stream field conversion: resolve and assert a Stream. -/
def streamFromObj (o : Object) (r : Resolve) : PdfResult Stream :=
  r.assert_stream o

/-- `Vec<T>` field conversion: resolve, assert an Array and convert every
element. -/
def listFromObj {α : Type} (conv : Object → Resolve → PdfResult α)
    (o : Object) (r : Resolve) : PdfResult (List α) :=
  match r.resolve o with
  | .error e => .error e
  | .ok (.array xs) => collectResults (fun x => conv x r) xs
  | .ok found => .error (.mismatchedObjectType .array found)

/-- Modelled from the spec: `Date` is parsed from a string value (its
parser lives outside the snapshot); embedded as the string. -/
def dateFromObj (o : Object) (r : Resolve) : PdfResult String :=
  stringFromObj o r

/-- Modelled from the spec: the `FromObj` derive for a field-less structure
asserts a Dictionary and produces the unit value. -/
def unitFromObj {α : Type} (mk : α) (o : Object) (r : Resolve) : PdfResult α :=
  match r.assert_dict o with
  | .error e => .error e
  | .ok _ => .ok mk

/-- `PageLayout` (src/catalog.rs:751-772): the page layout used when the
document is opened. -/
inductive PageLayout where
  | singlePage
  | oneColumn
  | twoColumnLeft
  | twoColumnRight
  | twoPageLeft
  | twoPageRight
deriving DecidableEq, Repr

/-- The default page layout (`#[default]` on `SinglePage`). -/
def PageLayout.dfl : PageLayout := .singlePage

/-- `PageLayout::from_str` as generated by `pdf_enum` from the
literal-to-variant table of src/catalog.rs:751-772; an unmatched literal
fails with `UnrecognizedVariant` carrying the literal and the enumeration's
declared name. -/
def PageLayout.from_str (s : String) : PdfResult PageLayout :=
  if s = "SinglePage" then .ok .singlePage
  else if s = "OneColumn" then .ok .oneColumn
  else if s = "TwoColumnLeft" then .ok .twoColumnLeft
  else if s = "TwoColumnRight" then .ok .twoColumnRight
  else if s = "TwoPageLeft" then .ok .twoPageLeft
  else if s = "TwoPageRight" then .ok .twoPageRight
  else .error (.unrecognizedVariant s "PageLayout")

/-- Enumerated field extraction for `PageLayout`: resolve the underlying
name primitive, then match it against the table. -/
def PageLayout.from_obj (o : Object) (r : Resolve) : PdfResult PageLayout :=
  match r.assert_name o with
  | .error e => .error e
  | .ok s => PageLayout.from_str s

/-- `PageMode` (src/catalog.rs:775-797): how the document is displayed when
opened. -/
inductive PageMode where
  | useNone
  | useOutlines
  | useThumbs
  | fullScreen
  | useOc
  | useAttachments
deriving DecidableEq, Repr

/-- The default page mode (`#[default]` on `UseNone`). -/
def PageMode.dfl : PageMode := .useNone

/-- `PageMode::from_str` as generated by `pdf_enum` from the variant table
of src/catalog.rs:775-797. -/
def PageMode.from_str (s : String) : PdfResult PageMode :=
  if s = "UseNone" then .ok .useNone
  else if s = "UseOutlines" then .ok .useOutlines
  else if s = "UseThumbs" then .ok .useThumbs
  else if s = "FullScreen" then .ok .fullScreen
  else if s = "UseOC" then .ok .useOc
  else if s = "UseAttachments" then .ok .useAttachments
  else .error (.unrecognizedVariant s "PageMode")

/-- Enumerated field extraction for `PageMode`. -/
def PageMode.from_obj (o : Object) (r : Resolve) : PdfResult PageMode :=
  match r.assert_name o with
  | .error e => .error e
  | .ok s => PageMode.from_str s

/-- `EncryptionAlgorithm` (src/catalog.rs:280-301), an integer-backed
enumeration. -/
inductive EncryptionAlgorithm where
  | undocumented
  | rc4OrAes40Bits
  | rc4OrAesGt40Bits
  | unpublished
  | basedOnOtherEntries
deriving DecidableEq, Repr

/-- Integer-backed enumerated field extraction for `EncryptionAlgorithm`
as generated by `pdf_enum(Integer)`: resolve the integer primitive and
match it against the declared discriminants 0..4. -/
def EncryptionAlgorithm.from_obj (o : Object) (r : Resolve) :
    PdfResult EncryptionAlgorithm :=
  match r.resolve o with
  | .error e => .error e
  | .ok (.integer 0) => .ok .undocumented
  | .ok (.integer 1) => .ok .rc4OrAes40Bits
  | .ok (.integer 2) => .ok .rc4OrAesGt40Bits
  | .ok (.integer 3) => .ok .unpublished
  | .ok (.integer 4) => .ok .basedOnOtherEntries
  | .ok (.integer i) => .error (.unrecognizedVariant (toString i) "EncryptionAlgorithm")
  | .ok found => .error (.mismatchedObjectType .integer found)

/-- Modelled from the spec: `Actions` is the action dictionary type (its
definition lives outside the snapshot); extraction asserts a dictionary. -/
structure Actions where
  dict : Dictionary

/-- Modelled from the spec: action-dictionary extraction. -/
def Actions.from_obj (o : Object) (r : Resolve) : PdfResult Actions :=
  match r.assert_dict o with
  | .error e => .error e
  | .ok d => .ok ⟨d⟩

/-- Modelled from the spec: `Destination` is the destination-array type
(its definition lives outside the snapshot); extraction resolves and
asserts an array. -/
structure Destination where
  elems : List Object

/-- Modelled from the spec: destination-array extraction, failing through
the normal shape-mismatch path on any other shape. -/
def Destination.from_obj (o : Object) (r : Resolve) : PdfResult Destination :=
  match r.resolve o with
  | .error e => .error e
  | .ok (.array xs) => .ok ⟨xs⟩
  | .ok found => .error (.mismatchedObjectType .array found)

/-- `OpenAction` (src/catalog.rs:428-432): either a destination to display
or an action to perform when the document is opened. -/
inductive OpenAction where
  | destination (d : Destination)
  | actions (a : Actions)

/-- `OpenAction::from_obj` (src/catalog.rs:434-444): resolve the input
once; a Dictionary is classified as the `Actions` variant, any other
resolved shape is passed to `Destination` extraction. -/
def OpenAction.from_obj (obj : Object) (lexer : Resolve) : PdfResult OpenAction :=
  match lexer.resolve obj with
  | .error e => .error e
  | .ok (.dictionary dict) =>
    match Actions.from_obj (.dictionary dict) lexer with
    | .error e => .error e
    | .ok a => .ok (.actions a)
  | .ok o =>
    match Destination.from_obj o lexer with
    | .error e => .error e
    | .ok dst => .ok (.destination dst)

/-- `Extensions` (src/catalog.rs:357-358), a field-less structure. -/
structure Extensions
/-- `AdditionalActions` (src/catalog.rs:446-447). -/
structure AdditionalActions
/-- `UriDict` (src/catalog.rs:448-449). -/
structure UriDict
/-- `WebCapture` (src/catalog.rs:580-581). -/
structure WebCapture
/-- `Permissions` (src/catalog.rs:649-650). -/
structure Permissions
/-- `Legal` (src/catalog.rs:651-652). -/
structure Legal
/-- `Requirement` (src/catalog.rs:653-654). -/
structure Requirement
/-- `Collection` (src/catalog.rs:655-656). -/
structure Collection

/-- `MarkInformationDictionary` (src/catalog.rs:555-578): three boolean
flags, each defaulting to false. -/
structure MarkInformationDictionary where
  marked : Bool
  user_properties : Bool
  suspects : Bool
deriving DecidableEq, Repr

/-- `FromObj` for `MarkInformationDictionary`: three defaulted booleans. -/
def MarkInformationDictionary.from_obj (o : Object) (r : Resolve) :
    PdfResult MarkInformationDictionary := do
  let d ← r.assert_dict o
  let marked ← getDefault d "Marked" r boolFromObj false
  let user_properties ← getDefault d "UserProperties" r boolFromObj false
  let suspects ← getDefault d "Suspects" r boolFromObj false
  pure ⟨marked, user_properties, suspects⟩

/-- `OutputIntent` (src/catalog.rs:583-637), type-tagged "OutputIntent". -/
structure OutputIntent where
  subtype : String
  output_condition : Option String
  output_condition_identifier : String
  registry_name : Option String
  info : Option String
  dest_output_profile : Option Stream

/-- `FromObj` for `OutputIntent`, validating the "OutputIntent" type tag
before the fields. -/
def OutputIntent.from_obj (o : Object) (r : Resolve) : PdfResult OutputIntent := do
  let d ← r.assert_dict o
  expect_type d "OutputIntent" r true
  let subtype ← getRequired d "S" r nameFromObj
  let output_condition ← getOptional d "OutputCondition" r stringFromObj
  let output_condition_identifier ← getRequired d "OutputConditionIdentifier" r stringFromObj
  let registry_name ← getOptional d "RegistryName" r stringFromObj
  let info ← getOptional d "Info" r stringFromObj
  let dest_output_profile ← getOptional d "DestOutputProfile" r streamFromObj
  pure ⟨subtype, output_condition, output_condition_identifier, registry_name,
    info, dest_output_profile⟩

/-- `PagePiece` (src/catalog.rs:639-647): a wrapped dictionary. -/
structure PagePiece where
  dict : Dictionary

/-- `FromObj` for `PagePiece` (src/catalog.rs:642-647). -/
def PagePiece.from_obj (o : Object) (r : Resolve) : PdfResult PagePiece :=
  match r.assert_dict o with
  | .error e => .error e
  | .ok d => .ok ⟨d⟩

/-- `DocumentCatalog` (src/catalog.rs:25-193), type-tagged "Catalog".
`TypedReference` fields are embedded as `Reference` (a typed reference is a
reference annotated at the type level only); compound types defined outside
the snapshot are kept as resolved objects or strings as noted on their
converters. -/
structure DocumentCatalog where
  version : Option String
  extensions : Option Extensions
  pages : Reference
  page_labels : Option Reference
  names : Option Reference
  dests : Option Reference
  viewer_preferences : Option Reference
  page_layout : PageLayout
  page_mode : PageMode
  outlines : Option Reference
  threads : Option Reference
  open_action : Option OpenAction
  aa : Option AdditionalActions
  uri : Option UriDict
  acro_form : Option Reference
  metadata : Option Reference
  struct_tree_root : Option Reference
  mark_info : Option MarkInformationDictionary
  lang : Option String
  spider_info : Option WebCapture
  output_intents : Option (List OutputIntent)
  piece_info : Option PagePiece
  oc_properties : Option Object
  perms : Option Permissions
  legal : Option Legal
  requirements : Option (List Requirement)
  collection : Option Collection
  needs_rendering : Bool
  last_modified : Option String

/-- `FromObj` for `DocumentCatalog` as the derive expands it (modelled from
the spec): assert a dictionary, validate the "Catalog" type tag before
extracting the rest, then extract each declared field in order with its
declared disposition. -/
def DocumentCatalog.from_obj (obj : Object) (r : Resolve) :
    PdfResult DocumentCatalog := do
  let d ← r.assert_dict obj
  expect_type d "Catalog" r true
  let version ← getOptional d "Version" r nameFromObj
  let extensions ← getOptional d "Extensions" r (unitFromObj Extensions.mk)
  let pages ← getRequired d "Pages" r refFromObj
  let page_labels ← getOptional d "PageLabels" r refFromObj
  let names ← getOptional d "Names" r refFromObj
  let dests ← getOptional d "Dests" r refFromObj
  let viewer_preferences ← getOptional d "ViewerPreferences" r refFromObj
  let page_layout ← getDefault d "PageLayout" r PageLayout.from_obj PageLayout.dfl
  let page_mode ← getDefault d "PageMode" r PageMode.from_obj PageMode.dfl
  let outlines ← getOptional d "Outlines" r refFromObj
  let threads ← getOptional d "Threads" r refFromObj
  let open_action ← getOptional d "OpenAction" r OpenAction.from_obj
  let aa ← getOptional d "AA" r (unitFromObj AdditionalActions.mk)
  let uri ← getOptional d "URI" r (unitFromObj UriDict.mk)
  let acro_form ← getOptional d "AcroForm" r refFromObj
  let metadata ← getOptional d "Metadata" r refFromObj
  let struct_tree_root ← getOptional d "StructTreeRoot" r refFromObj
  let mark_info ← getOptional d "MarkInfo" r MarkInformationDictionary.from_obj
  let lang ← getOptional d "Lang" r stringFromObj
  let spider_info ← getOptional d "SpiderInfo" r (unitFromObj WebCapture.mk)
  let output_intents ← getOptional d "OutputIntents" r (listFromObj OutputIntent.from_obj)
  let piece_info ← getOptional d "PieceInfo" r PagePiece.from_obj
  let oc_properties ← getOptional d "OCProperties" r objFromObj
  let perms ← getOptional d "Perms" r (unitFromObj Permissions.mk)
  let legal ← getOptional d "Legal" r (unitFromObj Legal.mk)
  let requirements ← getOptional d "Requirements" r (listFromObj (unitFromObj Requirement.mk))
  let collection ← getOptional d "Collection" r (unitFromObj Collection.mk)
  let needs_rendering ← getDefault d "NeedsRendering" r boolFromObj false
  let last_modified ← getOptional d "LastModified" r dateFromObj
  pure ⟨version, extensions, pages, page_labels, names, dests,
    viewer_preferences, page_layout, page_mode, outlines, threads,
    open_action, aa, uri, acro_form, metadata, struct_tree_root, mark_info,
    lang, spider_info, output_intents, piece_info, oc_properties, perms,
    legal, requirements, collection, needs_rendering, last_modified⟩

/-- `Encryption` (src/catalog.rs:195-278).  The catch-all `#[field("")]
other: Dictionary` collects the whole dictionary. -/
structure Encryption where
  filter : String
  sub_filter : Option String
  v : Option EncryptionAlgorithm
  length : Int
  crypt_filter : Option Dictionary
  stream_filter : String
  string_filter : String
  embedded_file_filter : String
  other : Dictionary

/-- `FromObj` for `Encryption` as the derive expands it (modelled from the
spec): assert a dictionary and extract each declared field in order; the
key length defaults to 40 and the three crypt-filter names default to
"Identity". -/
def Encryption.from_obj (obj : Object) (r : Resolve) : PdfResult Encryption := do
  let d ← r.assert_dict obj
  let filter ← getRequired d "Filter" r nameFromObj
  let sub_filter ← getOptional d "SubFilter" r nameFromObj
  let v ← getOptional d "V" r EncryptionAlgorithm.from_obj
  let length ← getDefault d "Length" r intFromObj 40
  let crypt_filter ← getOptional d "CF" r dictFromObj
  let stream_filter ← getDefault d "StmF" r nameFromObj "Identity"
  let string_filter ← getDefault d "StrF" r nameFromObj "Identity"
  let embedded_file_filter ← getDefault d "EFF" r nameFromObj "Identity"
  pure ⟨filter, sub_filter, v, length, crypt_filter, stream_filter,
    string_filter, embedded_file_filter, d⟩

/-- Modelled from the spec: a transformation matrix (`Matrix` lives outside
the snapshot); `f32` entries are embedded exactly as rationals. -/
structure Matrix where
  a : Rat
  b : Rat
  c : Rat
  d : Rat
  e : Rat
  f : Rat
deriving DecidableEq, Repr

/-- `Matrix::identity`: the identity transformation. -/
def Matrix.identity : Matrix := ⟨1, 0, 0, 1, 0, 0⟩

/-- `ClippingPath` (src/render/graphics_state.rs:250-251), a field-less
placeholder. -/
structure ClippingPath
deriving DecidableEq, Repr

/-- Modelled from the spec: the colour-space-paired colour type
(`ColorSpace` lives outside the snapshot); its `DeviceGray` variant carries
a gray component as constructed in src/render/graphics_state.rs:26-27. -/
inductive ColorSpace where
  | deviceGray (gray : Rat)
  | deviceRGB (red : Rat) (green : Rat) (blue : Rat)
  | deviceCMYK (cyan : Rat) (magenta : Rat) (yellow : Rat) (key : Rat)
deriving DecidableEq, Repr

/-- `GraphicsStateColorSpace` (src/render/graphics_state.rs:17-21): one
colour for stroking and one for all other painting operations, each paired
with its colour space. -/
structure GraphicsStateColorSpace where
  stroking : ColorSpace
  nonstroking : ColorSpace
deriving DecidableEq, Repr

/-- `Default` for `GraphicsStateColorSpace`
(src/render/graphics_state.rs:23-30): black in DeviceGray on both sides. -/
def GraphicsStateColorSpace.dfl : GraphicsStateColorSpace :=
  ⟨.deviceGray 0, .deviceGray 0⟩

/-- Modelled from the spec: line cap styles (`LineCapStyle` lives outside
the snapshot; butt, round and projecting-square caps). -/
inductive LineCapStyle where
  | butt
  | round
  | projectingSquare
deriving DecidableEq, Repr

/-- Modelled from the spec: line join styles (miter, round, bevel). -/
inductive LineJoinStyle where
  | miter
  | round
  | bevel
deriving DecidableEq, Repr

/-- Modelled from the spec: a dash pattern is a dash array plus a phase; a
solid line is the empty dash array at phase zero. -/
structure LineDashPattern where
  dash_array : List Rat
  phase : Rat
deriving DecidableEq, Repr

/-- `LineDashPattern::solid()`: a solid line. -/
def LineDashPattern.solid : LineDashPattern := ⟨[], 0⟩

/-- Modelled from the spec: rendering intents for CIE-based colour
conversion. -/
inductive RenderingIntent where
  | absoluteColorimetric
  | relativeColorimetric
  | saturation
  | perceptual
deriving DecidableEq, Repr

/-- Modelled from the spec: the standard blend modes of the transparent
imaging model (`BlendMode` lives outside the snapshot). -/
inductive BlendMode where
  | normal
  | multiply
  | screen
  | overlay
  | darken
  | lighten
  | colorDodge
  | colorBurn
  | hardLight
  | softLight
  | difference
  | exclusion
  | hue
  | saturation
  | color
  | luminosity
deriving DecidableEq, Repr

/-- Modelled from the spec: a soft mask is either the name None or a
soft-mask dictionary. -/
inductive SoftMask where
  | none
  | mask (dict : Dictionary)

/-- Modelled from the spec: a transfer function is either Identity or a
concrete function object. -/
inductive TransferFunction where
  | identity
  | function (f : Object)

/-- Modelled from the spec: a halftone is either the device default or a
concrete halftone dictionary or stream. -/
inductive Halftones where
  | dfl
  | halftone (h : Object)

/-- `DeviceIndependentGraphicsState` (src/render/graphics_state.rs:32-145);
`f32` parameters are embedded exactly as rationals. -/
structure DeviceIndependentGraphicsState where
  current_transformation_matrix : Matrix
  clipping_path : ClippingPath
  color_space : GraphicsStateColorSpace
  line_width : Rat
  line_cap : LineCapStyle
  line_join : LineJoinStyle
  miter_limit : Rat
  dash_pattern : LineDashPattern
  rendering_intent : RenderingIntent
  stroke_adjustment : Bool
  blend_mode : BlendMode
  soft_mask : SoftMask
  alpha_constant : Rat
  alpha_source : Bool

/-- `Default` for `DeviceIndependentGraphicsState`
(src/render/graphics_state.rs:147-166). -/
def DeviceIndependentGraphicsState.dfl : DeviceIndependentGraphicsState where
  current_transformation_matrix := Matrix.identity
  clipping_path := ⟨⟩
  color_space := GraphicsStateColorSpace.dfl
  line_width := 1
  line_cap := .butt
  line_join := .miter
  miter_limit := 10
  dash_pattern := LineDashPattern.solid
  rendering_intent := .relativeColorimetric
  stroke_adjustment := false
  blend_mode := .normal
  soft_mask := .none
  alpha_constant := 1
  alpha_source := false

/-- `DeviceDependentGraphicsState` (src/render/graphics_state.rs:168-233).
The black-generation and undercolor-removal functions are temporarily
nullable in the source; function objects live outside the snapshot and are
kept as objects. -/
structure DeviceDependentGraphicsState where
  overprint : Bool
  overprint_mode : Int
  black_generation : Option Object
  undercolor_removal : Option Object
  transfer : TransferFunction
  halftone : Halftones
  flatness : Rat
  smoothness : Rat

/-- `Default` for `DeviceDependentGraphicsState`
(src/render/graphics_state.rs:235-248). -/
def DeviceDependentGraphicsState.dfl : DeviceDependentGraphicsState where
  overprint := false
  overprint_mode := 0
  black_generation := Option.none
  undercolor_removal := Option.none
  transfer := .identity
  halftone := .dfl
  flatness := 1
  smoothness := 1 / 2

/-- `GraphicsState` (src/render/graphics_state.rs:11-15): the
device-independent and device-dependent partitions. -/
structure GraphicsState where
  device_independent : DeviceIndependentGraphicsState
  device_dependent : DeviceDependentGraphicsState

/-- `#[derive(Default)]` for `GraphicsState`: field-wise defaults. -/
def GraphicsState.dfl : GraphicsState :=
  ⟨DeviceIndependentGraphicsState.dfl, DeviceDependentGraphicsState.dfl⟩

/-- The assembled content stream: one decoded operator buffer. -/
structure ContentStream where
  combined_buffer : List Nat
deriving DecidableEq, Repr

/-- `ContentStream::from_obj` (src/content/stream.rs:28-56): resolve the
input; a Stream becomes a singleton list, an Array has each element
asserted to be a Stream, anything else fails with
`MismatchedObjectTypeAny { expected: [Array, Stream] }`; then the streams
are try-folded, extending the running buffer with each stream's decoded
bytes. -/
def ContentStream.from_obj (obj : Object) (resolver : Resolve) : PdfResult ContentStream :=
  match resolver.resolve obj with
  | .error e => .error e
  | .ok resolved =>
    match
      (match resolved with
       | .stream dict body => .ok [Stream.mk body dict]
       | .array arr => collectResults (fun o => resolver.assert_stream o) arr
       | _ => .error (.mismatchedObjectTypeAny [.array, .stream]) : PdfResult (List Stream)) with
    | .error e => .error e
    | .ok streams =>
      match
        tryFold
          (fun init s =>
            match resolver.decode_stream s.stream s.dict with
            | .error e => .error e
            | .ok decoded => .ok (init ++ decoded))
          [] streams with
      | .error e => .error e
      | .ok combined_buffer => .ok ⟨combined_buffer⟩

/-- Binding a success runs the continuation. -/
@[simp] theorem pdfOkBind {α β : Type} (a : α) (f : α → PdfResult β) :
    (Except.ok a : PdfResult α) >>= f = f a := rfl

/-- Binding a failure short-circuits. -/
@[simp] theorem pdfErrorBind {α β : Type} (e : ParseError) (f : α → PdfResult β) :
    (Except.error e : PdfResult α) >>= f = Except.error e := rfl

/-- `pure` produces a success. -/
@[simp] theorem pdfPure {α : Type} (a : α) :
    (pure a : PdfResult α) = Except.ok a := rfl

/-- A bind succeeds exactly when its head succeeds and the continuation
succeeds on the head's value. -/
theorem pdfBindEqOk {α β : Type} (x : PdfResult α) (f : α → PdfResult β) (b : β) :
    (x >>= f = Except.ok b) ↔ ∃ a, x = Except.ok a ∧ f a = Except.ok b := by
  cases x <;> simp

/-- Asserting a dictionary on a value that resolves to a dictionary
succeeds with the dictionary's entries. -/
theorem Resolve.assert_dict_ok (r : Resolve) (obj : Object) (d : Dictionary)
    (h : r.resolve obj = .ok (.dictionary d)) : r.assert_dict obj = .ok d := by
  unfold Resolve.assert_dict
  simp only [h]

/-- Asserting a name on a value that resolves to a name succeeds with the
name. -/
theorem Resolve.assert_name_ok (r : Resolve) (obj : Object) (n : String)
    (h : r.resolve obj = .ok (.name n)) : r.assert_name obj = .ok n := by
  unfold Resolve.assert_name
  simp only [h]

/-- Asserting a stream on a value that resolves to a non-stream shape fails
with a typed-mismatch error expecting `Stream` and naming the found object. -/
theorem Resolve.assert_stream_not_stream (r : Resolve) (obj o : Object)
    (h : r.resolve obj = .ok o) (hne : o.objectType ≠ .stream) :
    r.assert_stream obj = .error (.mismatchedObjectType .stream o) := by
  unfold Resolve.assert_stream
  rw [h]
  cases o <;> simp_all [Object.objectType]

/-- If `f` succeeds on every element of `pre` and fails on `x` with `e`,
collecting over `pre ++ x :: post` fails with `e`. -/
theorem collectResults_append_cons_error {α β : Type} (f : α → PdfResult β)
    (pre : List α) (x : α) (post : List α) (ss : List β) (e : ParseError)
    (hpre : collectResults f pre = .ok ss) (hx : f x = .error e) :
    collectResults f (pre ++ x :: post) = .error e := by
  induction pre generalizing ss with
  | nil => simp [collectResults, hx]
  | cons a as ih =>
    rw [List.cons_append]
    unfold collectResults at hpre ⊢
    cases hfa : f a with
    | error e' => simp [hfa] at hpre
    | ok y =>
      simp only [hfa] at hpre ⊢
      cases hrest : collectResults f as with
      | error e' => simp [hrest] at hpre
      | ok ys => simp [ih ys hrest]

/-- If decoding every stream in `ss` succeeds with the byte lists `ds`, the
try-fold that extends the running buffer with each decoded body produces the
accumulator followed by the concatenation of `ds` in order. -/
theorem tryFold_decode_eq_flatten (r : Resolve) (ss : List Stream)
    (ds : List (List Nat)) (acc : List Nat)
    (h : collectResults (fun s => r.decode_stream s.stream s.dict) ss = .ok ds) :
    tryFold
      (fun init s =>
        match r.decode_stream s.stream s.dict with
        | .error e => .error e
        | .ok decoded => .ok (init ++ decoded))
      acc ss = .ok (acc ++ ds.flatten) := by
  induction ss generalizing ds acc with
  | nil =>
    unfold collectResults at h
    cases h
    simp [tryFold]
  | cons s rest ih =>
    unfold collectResults at h
    cases hd : r.decode_stream s.stream s.dict with
    | error e => simp [hd] at h
    | ok d =>
      simp only [hd] at h
      cases hrest : collectResults (fun s => r.decode_stream s.stream s.dict) rest with
      | error e => simp [hrest] at h
      | ok ds' =>
        simp only [hrest] at h
        cases h
        unfold tryFold
        simp only [hd]
        rw [ih ds' (acc ++ d) hrest]
        simp

/-- C1: content-stream assembly.  A value resolving to a single Stream
assembles to exactly that stream's decoded bytes; a value resolving to an
Array of streams assembles to the concatenation of each element's decoded
bytes in array order with no inserted separator. -/
theorem contentStream_from_obj_assembles (r : Resolve) (obj : Object) :
    (∀ dict body bs, r.resolve obj = .ok (.stream dict body) →
        r.decode_stream body dict = .ok bs →
        ContentStream.from_obj obj r = .ok ⟨bs⟩) ∧
    (∀ arr ss ds, r.resolve obj = .ok (.array arr) →
        collectResults (fun o => r.assert_stream o) arr = .ok ss →
        collectResults (fun s => r.decode_stream s.stream s.dict) ss = .ok ds →
        ContentStream.from_obj obj r = .ok ⟨ds.flatten⟩) := by
  constructor
  · intro dict body bs hres hdec
    unfold ContentStream.from_obj
    simp only [hres]
    rw [tryFold_decode_eq_flatten r [⟨body, dict⟩] [bs] []
      (by simp [collectResults, hdec])]
    simp
  · intro arr ss ds hres hstreams hdec
    unfold ContentStream.from_obj
    simp only [hres, hstreams]
    rw [tryFold_decode_eq_flatten r ss ds [] hdec]
    simp

/-- C1 witness: two stream bodies decoding (under the identity filter
chain) to "abc" and "def" assemble as an Array to exactly "abcdef". -/
theorem contentStream_from_obj_assembles_witness :
    ContentStream.from_obj
      (.array [.stream [] [97, 98, 99], .stream [] [100, 101, 102]])
      idResolver = .ok ⟨[97, 98, 99, 100, 101, 102]⟩ :=
  (contentStream_from_obj_assembles idResolver _).2
    [.stream [] [97, 98, 99], .stream [] [100, 101, 102]]
    [⟨[97, 98, 99], []⟩, ⟨[100, 101, 102], []⟩]
    [[97, 98, 99], [100, 101, 102]] rfl rfl rfl

/-- C8: at an input resolving to neither Stream nor Array (here `Null`),
content-stream assembly fails with the object-shape-mismatch-against-
alternatives error whose acceptable set is exactly {Array, Stream} — the
error `src/content/stream.rs` constructs even though the `ParseError`
declaration in `src/error.rs` declares no such variant. -/
theorem contentStream_from_obj_other_shape :
    ContentStream.from_obj Object.null idResolver =
      .error (.mismatchedObjectTypeAny [.array, .stream]) := rfl

/-- C9 counterexample: for the array `[Null]` (an element that does not
resolve to a Stream), assembly fails with the single-expected-shape error
`MismatchedObjectType { expected: Stream, found: Null }` from
`assert_stream`, not with the error listing the alternatives
{Array, Stream} that the claim states. -/
theorem contentStream_element_error_counterexample :
    ContentStream.from_obj (.array [.null]) idResolver =
      .error (.mismatchedObjectType .stream .null) ∧
    ContentStream.from_obj (.array [.null]) idResolver ≠
      .error (.mismatchedObjectTypeAny [.array, .stream]) := by
  refine ⟨rfl, ?_⟩
  intro h
  rw [show ContentStream.from_obj (.array [.null]) idResolver =
      .error (.mismatchedObjectType .stream .null) from rfl] at h
  simp at h

/-- C9 amended: if the input resolves to an Array in which some element
resolves to a non-Stream shape `o` (all elements before it asserting to
streams successfully), assembly fails with the shape-mismatch error naming
the single expected shape Stream and the found object `o`. -/
theorem contentStream_element_not_stream_fails (r : Resolve) (obj : Object)
    (pre : List Object) (e : Object) (post : List Object) (ss : List Stream)
    (o : Object)
    (hres : r.resolve obj = .ok (.array (pre ++ e :: post)))
    (hpre : collectResults (fun x => r.assert_stream x) pre = .ok ss)
    (he : r.resolve e = .ok o)
    (hne : o.objectType ≠ .stream) :
    ContentStream.from_obj obj r = .error (.mismatchedObjectType .stream o) := by
  unfold ContentStream.from_obj
  simp only [hres]
  rw [collectResults_append_cons_error _ pre e post ss _ hpre
    (r.assert_stream_not_stream e o he hne)]

/-- C9 amended witness: the array whose first element is a stream and whose
second is the boolean `true` fails with `MismatchedObjectType` expecting
Stream and naming the boolean. -/
theorem contentStream_element_not_stream_fails_witness :
    ContentStream.from_obj (.array [.stream [] [97], .boolean true]) idResolver =
      .error (.mismatchedObjectType .stream (.boolean true)) :=
  contentStream_element_not_stream_fails idResolver _
    [.stream [] [97]] (.boolean true) [] [⟨[97], []⟩] (.boolean true)
    rfl rfl rfl (by simp [Object.objectType])

/-- C10: a value resolving to an empty Array assembles successfully to the
empty buffer, for every resolver — in particular for one whose filter
pipeline always fails, so no filter is invoked. -/
theorem contentStream_from_obj_empty_array (r : Resolve) (obj : Object)
    (h : r.resolve obj = .ok (.array [])) :
    ContentStream.from_obj obj r = .ok ⟨[]⟩ := by
  unfold ContentStream.from_obj
  rw [h]
  rfl

/-- C10 witness: the empty array assembles to the empty buffer even under
the resolver whose decoder always fails. -/
theorem contentStream_from_obj_empty_array_witness :
    ContentStream.from_obj (.array []) noDecodeResolver = .ok ⟨[]⟩ :=
  contentStream_from_obj_empty_array noDecodeResolver _ rfl

/-- C2: the default GraphicsState carries the literal specification
defaults in every claimed field: line width 1.0, line cap butt, line join
miter, miter limit 10.0, dash pattern solid, rendering intent
RelativeColorimetric, stroke-adjustment false, blend mode Normal, soft mask
None, alpha constant 1.0, alpha-is-shape false, overprint false, overprint
mode 0, transfer Identity, halftone Default, flatness 1.0, smoothness
0.5. -/
theorem graphicsState_default_values :
    GraphicsState.dfl.device_independent.line_width = 1 ∧
    GraphicsState.dfl.device_independent.line_cap = .butt ∧
    GraphicsState.dfl.device_independent.line_join = .miter ∧
    GraphicsState.dfl.device_independent.miter_limit = 10 ∧
    GraphicsState.dfl.device_independent.dash_pattern = LineDashPattern.solid ∧
    GraphicsState.dfl.device_independent.rendering_intent = .relativeColorimetric ∧
    GraphicsState.dfl.device_independent.stroke_adjustment = false ∧
    GraphicsState.dfl.device_independent.blend_mode = .normal ∧
    GraphicsState.dfl.device_independent.soft_mask = .none ∧
    GraphicsState.dfl.device_independent.alpha_constant = 1 ∧
    GraphicsState.dfl.device_independent.alpha_source = false ∧
    GraphicsState.dfl.device_dependent.overprint = false ∧
    GraphicsState.dfl.device_dependent.overprint_mode = 0 ∧
    GraphicsState.dfl.device_dependent.transfer = .identity ∧
    GraphicsState.dfl.device_dependent.halftone = .dfl ∧
    GraphicsState.dfl.device_dependent.flatness = 1 ∧
    GraphicsState.dfl.device_dependent.smoothness = 1 / 2 :=
  ⟨rfl, rfl, rfl, rfl, rfl, rfl, rfl, rfl, rfl, rfl, rfl, rfl, rfl, rfl,
    rfl, rfl, rfl⟩

/-- C3 counterexample: the dictionary `{Type: /Page}` lacks the key
"Pages", yet `DocumentCatalog` extraction fails with the type-tag mismatch
error (the tag is validated before any field is extracted), not with a
missing-required-key error naming "Pages". -/
theorem documentCatalog_missing_pages_counterexample :
    dictGet [("Type", Object.name "Page")] "Pages" = Option.none ∧
    DocumentCatalog.from_obj (.dictionary [("Type", .name "Page")]) idResolver =
      .error (.mismatchedTypeTag "Catalog" "Page") ∧
    ParseError.mismatchedTypeTag "Catalog" "Page" ≠
      ParseError.missingRequiredKey "Pages" :=
  ⟨rfl, rfl, by simp⟩

/-- C3 amended: for every input resolving to a dictionary that lacks the
key "Pages", whose type-tag check against "Catalog" succeeds and whose
earlier-declared fields (Version, Extensions) extract successfully,
`DocumentCatalog` extraction fails with a missing-required-key error naming
"Pages" exactly. -/
theorem documentCatalog_missing_pages_fails (r : Resolve) (obj : Object)
    (d : Dictionary) (v1 : Option String) (v2 : Option Extensions)
    (hres : r.resolve obj = .ok (.dictionary d))
    (htag : expect_type d "Catalog" r true = .ok ())
    (hver : getOptional d "Version" r nameFromObj = .ok v1)
    (hext : getOptional d "Extensions" r (unitFromObj Extensions.mk) = .ok v2)
    (hpages : dictGet d "Pages" = Option.none) :
    DocumentCatalog.from_obj obj r = .error (.missingRequiredKey "Pages") := by
  unfold DocumentCatalog.from_obj
  rw [r.assert_dict_ok obj d hres]
  simp only [pdfOkBind, htag, hver, hext]
  simp [getRequired, hpages]

/-- C3 amended witness: the dictionary `{Type: /Catalog}` lacks "Pages"
and extraction fails with the missing-required-key error naming it. -/
theorem documentCatalog_missing_pages_fails_witness :
    DocumentCatalog.from_obj (.dictionary [("Type", Object.name "Catalog")])
      idResolver = .error (.missingRequiredKey "Pages") :=
  documentCatalog_missing_pages_fails idResolver _
    [("Type", Object.name "Catalog")] Option.none Option.none
    rfl rfl rfl rfl rfl

/-- C4: when the "Length" key is absent, a successful `Encryption`
extraction yields length exactly 40; when it is present resolving to the
integer 128, a successful extraction yields 128. -/
theorem encryption_length_default_and_present :
    (∀ (r : Resolve) (obj : Object) (d : Dictionary) (e : Encryption),
        r.resolve obj = .ok (.dictionary d) →
        dictGet d "Length" = Option.none →
        Encryption.from_obj obj r = .ok e → e.length = 40) ∧
    (∀ (r : Resolve) (obj : Object) (d : Dictionary) (o : Object) (e : Encryption),
        r.resolve obj = .ok (.dictionary d) →
        dictGet d "Length" = some o →
        r.resolve o = .ok (.integer 128) →
        Encryption.from_obj obj r = .ok e → e.length = 128) := by
  constructor
  · intro r obj d e hres hlen hok
    unfold Encryption.from_obj at hok
    rw [r.assert_dict_ok obj d hres] at hok
    rw [pdfOkBind, pdfBindEqOk] at hok
    obtain ⟨fl, hF, hok⟩ := hok
    rw [pdfBindEqOk] at hok
    obtain ⟨sf, hS, hok⟩ := hok
    rw [pdfBindEqOk] at hok
    obtain ⟨vv, hV, hok⟩ := hok
    rw [pdfBindEqOk] at hok
    obtain ⟨len, hL, hok⟩ := hok
    have hlen40 : len = 40 := by
      unfold getDefault at hL
      simp only [hlen] at hL
      exact ((Except.ok.injEq _ _).mp hL).symm
    rw [pdfBindEqOk] at hok
    obtain ⟨cf, hC, hok⟩ := hok
    rw [pdfBindEqOk] at hok
    obtain ⟨stm, hStm, hok⟩ := hok
    rw [pdfBindEqOk] at hok
    obtain ⟨str, hStr, hok⟩ := hok
    rw [pdfBindEqOk] at hok
    obtain ⟨eff, hE, hok⟩ := hok
    rw [pdfPure] at hok
    cases hok
    simpa using hlen40
  · intro r obj d o e hres hlen hint hok
    unfold Encryption.from_obj at hok
    rw [r.assert_dict_ok obj d hres] at hok
    rw [pdfOkBind, pdfBindEqOk] at hok
    obtain ⟨fl, hF, hok⟩ := hok
    rw [pdfBindEqOk] at hok
    obtain ⟨sf, hS, hok⟩ := hok
    rw [pdfBindEqOk] at hok
    obtain ⟨vv, hV, hok⟩ := hok
    rw [pdfBindEqOk] at hok
    obtain ⟨len, hL, hok⟩ := hok
    have hlen128 : len = 128 := by
      unfold getDefault intFromObj at hL
      simp only [hlen, hint] at hL
      exact ((Except.ok.injEq _ _).mp hL).symm
    rw [pdfBindEqOk] at hok
    obtain ⟨cf, hC, hok⟩ := hok
    rw [pdfBindEqOk] at hok
    obtain ⟨stm, hStm, hok⟩ := hok
    rw [pdfBindEqOk] at hok
    obtain ⟨str, hStr, hok⟩ := hok
    rw [pdfBindEqOk] at hok
    obtain ⟨eff, hE, hok⟩ := hok
    rw [pdfPure] at hok
    cases hok
    simpa using hlen128

/-- C4 witness: a dictionary without "Length" extracts with key length 40;
the same dictionary with "Length" 128 extracts with 128. -/
theorem encryption_length_default_and_present_witness :
    (∀ e, Encryption.from_obj (.dictionary [("Filter", Object.name "Standard")])
        idResolver = .ok e → e.length = 40) ∧
    (∀ e, Encryption.from_obj
        (.dictionary [("Filter", Object.name "Standard"), ("Length", Object.integer 128)])
        idResolver = .ok e → e.length = 128) ∧
    Encryption.from_obj (.dictionary [("Filter", Object.name "Standard")])
      idResolver =
      .ok ⟨"Standard", Option.none, Option.none, 40, Option.none, "Identity",
        "Identity", "Identity", [("Filter", Object.name "Standard")]⟩ := by
  refine ⟨?_, ?_, rfl⟩
  · intro e he
    exact encryption_length_default_and_present.1 idResolver _
      [("Filter", Object.name "Standard")] e rfl rfl he
  · intro e he
    exact encryption_length_default_and_present.2 idResolver _
      [("Filter", Object.name "Standard"), ("Length", Object.integer 128)]
      (Object.integer 128) e rfl rfl rfl he

/-- C5: a name literal outside the `PageLayout` variant table makes both
the table matcher and field extraction fail with an unrecognized-variant
error carrying the literal and the enumeration's name "PageLayout" (no
default is substituted); the literal "TwoColumnLeft" yields the
`TwoColumnLeft` variant. -/
theorem pageLayout_unrecognized_variant (s : String)
    (h : s ∉ ["SinglePage", "OneColumn", "TwoColumnLeft", "TwoColumnRight",
      "TwoPageLeft", "TwoPageRight"]) :
    PageLayout.from_str s = .error (.unrecognizedVariant s "PageLayout") ∧
    (∀ (r : Resolve) (o : Object), r.resolve o = .ok (.name s) →
      PageLayout.from_obj o r = .error (.unrecognizedVariant s "PageLayout")) ∧
    PageLayout.from_str "TwoColumnLeft" = .ok .twoColumnLeft ∧
    (∀ (r : Resolve) (o : Object), r.resolve o = .ok (.name "TwoColumnLeft") →
      PageLayout.from_obj o r = .ok .twoColumnLeft) := by
  simp only [List.mem_cons, List.not_mem_nil, or_false, not_or] at h
  obtain ⟨h1, h2, h3, h4, h5, h6⟩ := h
  have hstr : PageLayout.from_str s = .error (.unrecognizedVariant s "PageLayout") := by
    unfold PageLayout.from_str
    simp [h1, h2, h3, h4, h5, h6]
  refine ⟨hstr, ?_, rfl, ?_⟩
  · intro r o ho
    unfold PageLayout.from_obj
    rw [r.assert_name_ok o s ho]
    exact hstr
  · intro r o ho
    unfold PageLayout.from_obj
    rw [r.assert_name_ok o "TwoColumnLeft" ho]
    rfl

/-- C5 witness: the literal "Bogus" fails with
`UnrecognizedVariant { found: "Bogus", ty: "PageLayout" }` while
"TwoColumnLeft" extracts to the variant. -/
theorem pageLayout_unrecognized_variant_witness :
    PageLayout.from_obj (.name "Bogus") idResolver =
      .error (.unrecognizedVariant "Bogus" "PageLayout") ∧
    PageLayout.from_obj (.name "TwoColumnLeft") idResolver =
      .ok .twoColumnLeft :=
  ⟨(pageLayout_unrecognized_variant "Bogus" (by decide)).2.1 idResolver _ rfl,
   (pageLayout_unrecognized_variant "Bogus" (by decide)).2.2.2 idResolver _ rfl⟩

/-- C6: `DocumentCatalog` extraction validates the "Catalog" type tag
before extracting any field: whenever the tag resolves to a different name
(e.g. "Page"), extraction fails with the type-mismatch error naming both
the expected and the found tags, with no assumption on (and no extraction
of) the remaining fields. -/
theorem documentCatalog_tag_mismatch_fails_fast (r : Resolve) (obj : Object)
    (d : Dictionary) (t : Object) (n : String)
    (hres : r.resolve obj = .ok (.dictionary d))
    (htag : dictGet d "Type" = some t)
    (htn : r.resolve t = .ok (.name n))
    (hne : n ≠ "Catalog") :
    DocumentCatalog.from_obj obj r = .error (.mismatchedTypeTag "Catalog" n) := by
  unfold DocumentCatalog.from_obj
  rw [r.assert_dict_ok obj d hres]
  have hexp : expect_type d "Catalog" r true =
      .error (.mismatchedTypeTag "Catalog" n) := by
    unfold expect_type
    simp [htag, htn, hne]
  simp [hexp]

/-- C6 witness: a dictionary tagged "Page" — even one whose "Version"
field would itself fail to extract — fails with the tag mismatch naming
"Catalog" and "Page". -/
theorem documentCatalog_tag_mismatch_fails_fast_witness :
    DocumentCatalog.from_obj
      (.dictionary [("Type", Object.name "Page"), ("Version", Object.integer 5)])
      idResolver = .error (.mismatchedTypeTag "Catalog" "Page") :=
  documentCatalog_tag_mismatch_fails_fast idResolver _
    [("Type", Object.name "Page"), ("Version", Object.integer 5)]
    (Object.name "Page") "Page" rfl rfl rfl (by decide)

/-- C7: `OpenAction::from_obj` factors through a single resolution of its
input and classifies the resolved shape totally: a Dictionary is passed to
the `Actions` extraction and wrapped in the `Actions` variant, and every
non-Dictionary shape is passed to the `Destination` extraction and wrapped
in the `Destination` variant. -/
theorem openAction_from_obj_dispatch (r : Resolve) (obj o : Object)
    (h : r.resolve obj = .ok o) :
    (o.objectType = .dictionary →
      OpenAction.from_obj obj r = (Actions.from_obj o r).map OpenAction.actions) ∧
    (o.objectType ≠ .dictionary →
      OpenAction.from_obj obj r =
        (Destination.from_obj o r).map OpenAction.destination) := by
  unfold OpenAction.from_obj
  simp only [h]
  constructor
  · intro hd
    cases o with
    | dictionary dict =>
      cases hA : Actions.from_obj (.dictionary dict) r with
      | error e => simp [hA, Except.map]
      | ok a => simp [hA, Except.map]
    | null => simp [Object.objectType] at hd
    | boolean b => simp [Object.objectType] at hd
    | integer i => simp [Object.objectType] at hd
    | real q => simp [Object.objectType] at hd
    | string s => simp [Object.objectType] at hd
    | name n => simp [Object.objectType] at hd
    | array xs => simp [Object.objectType] at hd
    | stream sd sb => simp [Object.objectType] at hd
    | reference rf => simp [Object.objectType] at hd
  · intro hd
    cases o with
    | dictionary dict => simp [Object.objectType] at hd
    | null =>
      cases hD : Destination.from_obj .null r with
      | error e => simp [hD, Except.map]
      | ok dst => simp [hD, Except.map]
    | boolean b =>
      cases hD : Destination.from_obj (.boolean b) r with
      | error e => simp [hD, Except.map]
      | ok dst => simp [hD, Except.map]
    | integer i =>
      cases hD : Destination.from_obj (.integer i) r with
      | error e => simp [hD, Except.map]
      | ok dst => simp [hD, Except.map]
    | real q =>
      cases hD : Destination.from_obj (.real q) r with
      | error e => simp [hD, Except.map]
      | ok dst => simp [hD, Except.map]
    | string s =>
      cases hD : Destination.from_obj (.string s) r with
      | error e => simp [hD, Except.map]
      | ok dst => simp [hD, Except.map]
    | name n =>
      cases hD : Destination.from_obj (.name n) r with
      | error e => simp [hD, Except.map]
      | ok dst => simp [hD, Except.map]
    | array xs =>
      cases hD : Destination.from_obj (.array xs) r with
      | error e => simp [hD, Except.map]
      | ok dst => simp [hD, Except.map]
    | stream sd sb =>
      cases hD : Destination.from_obj (.stream sd sb) r with
      | error e => simp [hD, Except.map]
      | ok dst => simp [hD, Except.map]
    | reference rf =>
      cases hD : Destination.from_obj (.reference rf) r with
      | error e => simp [hD, Except.map]
      | ok dst => simp [hD, Except.map]

/-- C7 witness: a dictionary input is classified as the Actions variant
(shown for a one-entry action dictionary resolving to itself). -/
theorem openAction_from_obj_dispatch_witness :
    OpenAction.from_obj (.dictionary [("S", Object.name "GoTo")]) idResolver =
      (Actions.from_obj (.dictionary [("S", Object.name "GoTo")]) idResolver).map
        OpenAction.actions :=
  (openAction_from_obj_dispatch idResolver _ _ rfl).1 rfl

end Pdf
